import Mathlib

/-!
Verification development for the space-analysis core of the
`analytics_cup_research` repository (`src/utils.py`, `src/space_analysis.py`).

Modelling conventions:
* pandas DataFrames become lists of typed rows; the column list of the
  kinematics table is carried alongside the rows so that the missing-column
  check of `detect_runs` can be expressed;
* coordinates, timestamps (seconds since period start), speeds and areas are
  rationals; IEEE specials that can actually arise in `calculate_velocity`
  (NaN from a leading `diff`, infinities from division by a zero time delta)
  are modelled explicitly by the `PyFloat` type;
* `numpy.sqrt` and `scipy.spatial.Voronoi` are external libraries, so they
  enter the embedding as parameters: a square-root function `ℚ → ℚ` and a
  Voronoi oracle returning the `point_region` / `regions` / `vertices`
  arrays (with `none` standing for a raised exception);
* console printing and progress bars are side effects without influence on
  the returned data and are omitted.
-/

namespace SpaceAnalysis

/-- Values of the float-valued `velocity` column produced by
`calculate_velocity`: a real number, NaN, or a signed infinity. -/
inductive PyFloat where
  | nan : PyFloat
  | inf : PyFloat
  | ninf : PyFloat
  | num : ℚ → PyFloat
deriving DecidableEq, Repr, Inhabited

/-- numpy division semantics for `distance / time_delta`, where either operand
may be NaN (modelled as `none`, as produced by a leading `diff`):
`0/0 = NaN`, `a/0 = ±inf` for `a ≠ 0`, NaN propagates. -/
def pyDiv : Option ℚ → Option ℚ → PyFloat
  | some a, some b =>
      if b = 0 then (if a = 0 then .nan else if 0 < a then .inf else .ninf)
      else .num (a / b)
  | _, _ => .nan

/-- Pandas `Series.fillna(0)`: replaces NaN by 0 and leaves every other value
(including infinities) unchanged. -/
def fillna0 : PyFloat → PyFloat
  | .nan => .num 0
  | v => v

/-- A row of the flat tracking table handed to `calculate_velocity`
(columns frame, timestamp, player_id, x, y). -/
structure TrackRow where
  frame : Int
  timestamp : ℚ
  player_id : Int
  x : ℚ
  y : ℚ
deriving DecidableEq, Repr, Inhabited

/-- A tracking row extended with the computed `velocity` column. -/
structure TrackVelRow where
  frame : Int
  timestamp : ℚ
  player_id : Int
  x : ℚ
  y : ℚ
  velocity : PyFloat
deriving DecidableEq, Repr, Inhabited

/-- Stable insertion of an element into a list sorted by `le`. -/
def insertSorted (le : α → α → Bool) (a : α) : List α → List α
  | [] => [a]
  | b :: rest => if le a b then a :: b :: rest else b :: insertSorted le a rest

/-- Stable sort by the boolean relation `le`
(models `DataFrame.sort_values`). -/
def sortBy (le : α → α → Bool) : List α → List α
  | [] => []
  | a :: rest => insertSorted le a (sortBy le rest)

/-- Lexicographic `(player_id, frame)` order on tracking rows. -/
def trackLe (a b : TrackRow) : Bool :=
  a.player_id < b.player_id || (a.player_id == b.player_id && a.frame ≤ b.frame)

/-- The per-row velocity computation of `calculate_velocity` on the sorted
table, threading the previous row: the per-player `diff` of a row is taken
against the directly preceding row when it belongs to the same player, and is
NaN (`none`) otherwise. -/
def velocityRows (sqrtFn : ℚ → ℚ) :
    Option TrackRow → List TrackRow → List TrackVelRow
  | _, [] => []
  | prev, r :: rest =>
    let sameGroup : Option TrackRow := prev.bind (fun p =>
      if p.player_id == r.player_id then some p else none)
    let distance : Option ℚ := sameGroup.map (fun p =>
      sqrtFn ((r.x - p.x) ^ 2 + (r.y - p.y) ^ 2))
    let time_delta : Option ℚ := sameGroup.map (fun p =>
      r.timestamp - p.timestamp)
    ⟨r.frame, r.timestamp, r.player_id, r.x, r.y,
      fillna0 (pyDiv distance time_delta)⟩ :: velocityRows sqrtFn (some r) rest

/-- Embeds `calculate_velocity` (src/utils.py lines 19-52): optionally restrict to one
player, sort by `(player_id, frame)`, and give each row the velocity
`sqrt(dx² + dy²) / dt` with respect to the previous row of the same player;
the leading row of each player has NaN diffs, and the final `fillna(0)` turns
NaN velocities into 0.  `sqrtFn` stands for `numpy.sqrt`. -/
def calculate_velocity (sqrtFn : ℚ → ℚ) (df : List TrackRow)
    (player_id : Option Int) : List TrackVelRow :=
  let df₁ := match player_id with
    | some pid => df.filter (fun r => r.player_id == pid)
    | none => df
  velocityRows sqrtFn none (sortBy trackLe df₁)

/-- A row of the kinematics table consumed by `detect_runs` and
`analyze_offball_runs` (velocity already finite-valued). -/
structure VelRow where
  frame : Int
  timestamp : ℚ
  player_id : Int
  x : ℚ
  y : ℚ
  is_detected : Bool
  velocity : ℚ
deriving DecidableEq, Repr, Inhabited

/-- A kinematics DataFrame: its column names together with its rows. -/
structure VelFrame where
  columns : List String
  rows : List VelRow
deriving DecidableEq, Repr, Inhabited

/-- Lexicographic `(player_id, frame)` order on kinematics rows. -/
def velLe (a b : VelRow) : Bool :=
  a.player_id < b.player_id || (a.player_id == b.player_id && a.frame ≤ b.frame)

/-- Two consecutive rows belong to the same run: same player and a frame gap
of at most `gap` (pandas: `groupby("player_id")["frame"].diff() > gap` starts
a new run id). -/
def chainOk (pid fr : α → Int) (gap : Int) (a b : α) : Bool :=
  pid a == pid b && decide (fr b - fr a ≤ gap)

/-- Prepend one row to a block partition: extend the first block when the row
chains onto its head, otherwise open a new block. -/
def consSeg (ok : α → α → Bool) (a : α) : List (List α) → List (List α)
  | [] => [[a]]
  | [] :: gs => [a] :: [] :: gs
  | (b :: g) :: gs =>
    if ok a b then (a :: b :: g) :: gs else [a] :: (b :: g) :: gs

/-- Split a `(player_id, frame)`-sorted list into the maximal blocks of
consecutive rows chained by `chainOk`; this is exactly the partition induced
by `groupby(["player_id", run_id])` where `run_id` is the cumulative sum of
gap indicators. -/
def splitSegs (pid fr : α → Int) (gap : Int) : List α → List (List α)
  | [] => []
  | a :: rest => consSeg (chainOk pid fr gap) a (splitSegs pid fr gap rest)

/-- Wall-clock duration of one run: last timestamp minus first timestamp. -/
def segDuration (g : List VelRow) : ℚ :=
  ((g.getLast?.map (fun r => r.timestamp)).getD 0)
    - ((g.head?.map (fun r => r.timestamp)).getD 0)

/-- Embeds `detect_runs` (src/utils.py lines 55-110): raise if the `velocity` column
is missing; keep rows with `velocity ≥ velocity_threshold`; sort by
`(player_id, frame)`; split into runs at frame gaps `> 1`; keep the runs whose
duration is `≥ min_duration` and flatten them back (the inner merge preserves
the sorted row order).  Python defaults: threshold 5.0, min_duration 3.0 —
the duration filter always runs. -/
def detect_runs (df : VelFrame) (velocity_threshold : ℚ) (min_duration : ℚ) :
    Except String (List VelRow) :=
  if "velocity" ∈ df.columns then
    let high_speed := df.rows.filter (fun r =>
      decide (velocity_threshold ≤ r.velocity))
    let sorted := sortBy velLe high_speed
    let segs := splitSegs (fun r : VelRow => r.player_id)
      (fun r : VelRow => r.frame) 1 sorted
    let valid := segs.filter (fun g => decide (min_duration ≤ segDuration g))
    .ok valid.flatten
  else
    .error "DataFrame must have velocity column. Run calculate_velocity first."

/-- A row of the possession table (`player_id` is nullable: `None` models a
pandas NaN, i.e. no resolvable possessor). -/
structure PossRow where
  frame : Int
  player_id : Option Int
  group : String
deriving DecidableEq, Repr, Inhabited

/-- The result of a successful `scipy.spatial.Voronoi` construction, as read
by `calculate_voronoi_areas`: for input point `i`, `point_region[i]` indexes
into `regions`, whose entries list vertex indices with `-1` standing for the
vertex at infinity. -/
structure VorResult where
  point_region : List Nat
  regions : List (List Int)
  vertices : List (ℚ × ℚ)
deriving DecidableEq, Repr, Inhabited

/-- The external Voronoi library: given the frame's points it either returns
a diagram or raises (`none`, caught by the code). -/
def VorOracle : Type := List (ℚ × ℚ) → Option VorResult

/-- The rows of the tracking table belonging to one frame
(`df[df["frame"] == frame_number]`). -/
def frameRows (df : List VelRow) (frame_number : Int) : List VelRow :=
  df.filter (fun r => r.frame == frame_number)

/-- The `(x, y)` points of one frame, in row order. -/
def framePoints (df : List VelRow) (frame_number : Int) : List (ℚ × ℚ) :=
  (frameRows df frame_number).map (fun r => (r.x, r.y))

/-- Models `np.roll(l, 1)`: rotate a list one position to the right. -/
def roll1 (l : List ℚ) : List ℚ :=
  match l.reverse with
  | [] => []
  | x :: _ => x :: l.dropLast

/-- Dot product of two coordinate lists. -/
def dotQ (xs ys : List ℚ) : ℚ :=
  (List.zipWith (· * ·) xs ys).sum

/-- Shoelace formula as written in the source:
`0.5 * |dot(x, roll(y,1)) - dot(y, roll(x,1))|`. -/
def shoelace (vertices : List (ℚ × ℚ)) : ℚ :=
  let x := vertices.map (fun v => v.1)
  let y := vertices.map (fun v => v.2)
  (1 / 2) * |dotQ x (roll1 y) - dotQ y (roll1 x)|

/-- The Voronoi region of the `i`-th input point:
`vor.regions[vor.point_region[i]]`. -/
def regionOf (v : VorResult) (i : Nat) : List Int :=
  v.regions.getD (v.point_region.getD i 0) []

/-- The vertex coordinates of the `i`-th point's region:
`vor.vertices[region]`. -/
def cellVertices (v : VorResult) (i : Nat) : List (ℚ × ℚ) :=
  (regionOf v i).map (fun idx => v.vertices.getD idx.toNat (0, 0))

/-- Area assigned to the `i`-th point of a frame with `n` points: the fallback
`pitch_length * pitch_width / n` for unbounded (`-1` in the region) or empty
regions, otherwise the shoelace area of the region's vertices capped at the
pitch area, with the fallback again for regions of fewer than 3 vertices. -/
def cellArea (v : VorResult) (pitch_length pitch_width : ℚ) (n : Nat)
    (i : Nat) : ℚ :=
  if (-1 : Int) ∈ regionOf v i ∨ (regionOf v i).length = 0 then
    pitch_length * pitch_width / n
  else if 3 ≤ (cellVertices v i).length then
    min (shoelace (cellVertices v i)) (pitch_length * pitch_width)
  else
    pitch_length * pitch_width / n

/-- Embeds `calculate_voronoi_areas` (src/space_analysis.py lines 11-69): fewer than
4 rows in the frame gives an empty map; a failed Voronoi construction gives an
empty map; otherwise each player of the frame is mapped to `cellArea` of its
point.  The association list is in frame-row order, mirroring dict insertion
order.  Python defaults: pitch 105 × 68. -/
def calculate_voronoi_areas (vor : VorOracle) (df : List VelRow)
    (frame_number : Int) (pitch_length pitch_width : ℚ) : List (Int × ℚ) :=
  if (frameRows df frame_number).length < 4 then []
  else
    match vor (framePoints df frame_number) with
    | none => []
    | some v =>
      (frameRows df frame_number).enum.map (fun p =>
        (p.2.player_id, cellArea v pitch_length pitch_width
          (frameRows df frame_number).length p.1))

/-- Embeds `measure_space_creation` (src/space_analysis.py lines 72-104): Voronoi
maps at the start and end frames (with default pitch dimensions); if either is
empty return the empty map; otherwise each teammate present in both maps with
a strictly positive area difference is mapped to that difference. -/
def measure_space_creation (vor : VorOracle) (df : List VelRow)
    (player_id : Int) (start_frame end_frame : Int)
    (teammate_ids : List Int) : List (Int × ℚ) :=
  if calculate_voronoi_areas vor df start_frame 105 68 = []
      ∨ calculate_voronoi_areas vor df end_frame 105 68 = [] then []
  else
    teammate_ids.filterMap (fun tm_id =>
      match (calculate_voronoi_areas vor df start_frame 105 68).lookup tm_id,
          (calculate_voronoi_areas vor df end_frame 105 68).lookup tm_id with
      | some before, some after =>
        if 0 < after - before then some (tm_id, after - before) else none
      | _, _ => none)

/-- The `player_to_team` dict of `analyze_offball_runs`: built by writing all
home ids and then all away ids, so an id on both rosters ends up `"away"`. -/
def playerToTeam (home_player_ids away_player_ids : List Int) (pid : Int) :
    Option String :=
  if pid ∈ away_player_ids then some "away"
  else if pid ∈ home_player_ids then some "home"
  else none

/-- One emitted Run-Frame Record of `analyze_offball_runs`. -/
structure ResultRow where
  frame : Int
  player_id : Int
  team : String
  velocity : ℚ
  space_created : ℚ
  teammates_benefited : Nat
  is_detected : Bool
deriving DecidableEq, Repr, Inhabited

/-- The loop body of `analyze_offball_runs` for one detected run row: `none`
models `continue`.  The checks, in source order: runner on a roster; a
possession row for the frame exists; its `player_id` is not NaN; the possessor
is not the runner; the possessor is on a roster; possessor team equals runner
team; the runner has teammates; the measured space map is nonempty. -/
def processRun (vor : VorOracle) (df : List VelRow)
    (possession_df : List PossRow)
    (home_player_ids away_player_ids : List Int) (window_frames : Int)
    (run : VelRow) : Option ResultRow :=
  match playerToTeam home_player_ids away_player_ids run.player_id with
  | none => none
  | some runner_team =>
    match (possession_df.filter (fun p => p.frame == run.frame)).head? with
    | none => none
    | some poss =>
      match poss.player_id with
      | none => none
      | some poss_player_id =>
        if poss_player_id = run.player_id then none
        else
          match playerToTeam home_player_ids away_player_ids poss_player_id with
          | none => none
          | some poss_team =>
            if runner_team ≠ poss_team then none
            else
              let teammates :=
                (if runner_team = "home" then home_player_ids
                 else away_player_ids).filter (fun p => p ≠ run.player_id)
              if teammates = [] then none
              else
                let space_created := measure_space_creation vor df
                  run.player_id run.frame (run.frame + window_frames) teammates
                if space_created = [] then none
                else some
                  { frame := run.frame
                    player_id := run.player_id
                    team := runner_team
                    velocity := run.velocity
                    space_created := (space_created.map (fun p => p.2)).sum
                    teammates_benefited := space_created.length
                    is_detected := run.is_detected }

/-- Embeds `analyze_offball_runs` (src/space_analysis.py lines 107-205): detect runs
(threshold as given, the duration filter at its default 3.0 s) and process
each detected row in order, keeping the emitted records. -/
def analyze_offball_runs (vor : VorOracle) (df : VelFrame)
    (possession_df : List PossRow)
    (home_player_ids away_player_ids : List Int)
    (velocity_threshold : ℚ) (window_frames : Int) :
    Except String (List ResultRow) :=
  (detect_runs df velocity_threshold 3).map (fun runs =>
    runs.filterMap
      (processRun vor df.rows possession_df home_player_ids away_player_ids
        window_frames))

/-- A row of the input of `group_runs_to_trajectories`: a Run-Frame Record
with the raw `x`, `y` coordinates merged back in by the orchestrator. -/
structure RunRow where
  frame : Int
  player_id : Int
  team : String
  velocity : ℚ
  space_created : ℚ
  teammates_benefited : Nat
  is_detected : Bool
  x : ℚ
  y : ℚ
deriving DecidableEq, Repr, Inhabited

/-- Lexicographic `(player_id, frame)` order on run rows. -/
def runLe (a b : RunRow) : Bool :=
  a.player_id < b.player_id || (a.player_id == b.player_id && a.frame ≤ b.frame)

/-- One trajectory row emitted by `group_runs_to_trajectories`
(`is_detected` becomes the group mean of the boolean column). -/
structure Traj where
  player_id : Int
  team : String
  start_frame : Int
  end_frame : Int
  duration_frames : Nat
  start_x : ℚ
  start_y : ℚ
  end_x : ℚ
  end_y : ℚ
  max_velocity : ℚ
  avg_velocity : ℚ
  total_space_created : ℚ
  is_detected : ℚ
deriving DecidableEq, Repr, Inhabited

/-- The trajectory row built from one nonempty group of run rows, mirroring
the dict literal of `group_runs_to_trajectories`: first/last row for frames
and coordinates, `len(group)` as duration, max/mean of `velocity`, sum of
`space_created`, mean of `is_detected`. -/
def mkTraj (g : List RunRow) : Traj :=
  let first := g.headD default
  let last := g.getLastD default
  { player_id := first.player_id
    team := first.team
    start_frame := first.frame
    end_frame := last.frame
    duration_frames := g.length
    start_x := first.x
    start_y := first.y
    end_x := last.x
    end_y := last.y
    max_velocity := (g.map (fun r => r.velocity)).foldr max first.velocity
    avg_velocity := (g.map (fun r => r.velocity)).sum / g.length
    total_space_created := (g.map (fun r => r.space_created)).sum
    is_detected := ((g.filter (fun r => r.is_detected)).length : ℚ) / g.length }

/-- Embeds `group_runs_to_trajectories` (src/space_analysis.py lines 208-258): sort
by `(player_id, frame)`, start a new group at a frame gap `> 10`, skip groups
of fewer than 3 rows, and emit one `Traj` per remaining group. -/
def group_runs_to_trajectories (runs_df : List RunRow) : List Traj :=
  if runs_df.length = 0 then []
  else
    let sorted := sortBy runLe runs_df
    let segs := splitSegs (fun r : RunRow => r.player_id)
      (fun r : RunRow => r.frame) 10 sorted
    (segs.filter (fun g => decide (3 ≤ g.length))).map mkTraj

/-- Negate the `start_x` and `end_x` of a trajectory
(the `traj.loc[mask, col] *= -1` lines). -/
def flipTrajX (t : Traj) : Traj :=
  { t with start_x := -t.start_x, end_x := -t.end_x }

/-- The attack-direction normalization block of `analyze_all_matches_normalized`
(src/space_analysis.py lines 347-369): look up the period's home-attack
direction (period 1 → index 0, period 2 → index 1; no entry → no change); if
the home team attacks right-to-left, negate the home trajectories' x
coordinates, otherwise negate the away trajectories'. -/
def normalize_trajectories (home_team_side : List String) (period : Nat)
    (traj : List Traj) : List Traj :=
  match home_team_side.get? (period - 1) with
  | none => traj
  | some home_direction =>
    if home_direction == "right_to_left" then
      traj.map (fun t => if t.team == "home" then flipTrajX t else t)
    else
      traj.map (fun t => if t.team == "away" then flipTrajX t else t)

/-- Modelled from the spec: the team that is attacking right-to-left in a
period, read off the period's home-attack-direction label ("all trajectories
are expressed as if every team always attacks left-to-right"). -/
def specAttacksRightToLeft (home_direction team : String) : Bool :=
  (home_direction == "right_to_left" && team == "home")
    || (home_direction == "left_to_right" && team == "away")

/-! ### Concrete instances used as counterexamples and witnesses -/

/-- A stand-in for `numpy.sqrt`, adequate on the inputs it is evaluated at
(it is only ever applied to 25 in the concrete tables below). -/
def sqrtPts : ℚ → ℚ := fun q => if q = 25 then 5 else 0

/-- Two samples of one player whose timestamps decrease (e.g. a period
boundary): elapsed time is `-1` s over a displacement of 5 m. -/
def trackNegDt : List TrackRow := [⟨1, 10, 1, 0, 0⟩, ⟨2, 9, 1, 3, 4⟩]

/-- Two samples of one player with identical timestamps: elapsed time 0 over
a displacement of 5 m. -/
def trackZeroDt : List TrackRow := [⟨1, 10, 2, 0, 0⟩, ⟨2, 10, 2, 3, 4⟩]

/-- The column list of a kinematics table produced by `calculate_velocity`. -/
def velCols : List String :=
  ["frame", "timestamp", "period", "player_id", "x", "y", "is_detected",
   "velocity"]

/-- The spec's concrete scenario: one player, speed readings [0, 3, 6, 7, 2]
over consecutive frames sampled at 10 Hz. -/
def scenarioRows : List VelRow :=
  [⟨1, 1 / 10, 7, 0, 0, true, 0⟩,
   ⟨2, 2 / 10, 7, 0, 0, true, 3⟩,
   ⟨3, 3 / 10, 7, 0, 0, true, 6⟩,
   ⟨4, 4 / 10, 7, 0, 0, true, 7⟩,
   ⟨5, 5 / 10, 7, 0, 0, true, 2⟩]

/-- The scenario rows as a kinematics DataFrame. -/
def scenarioFrame : VelFrame := ⟨velCols, scenarioRows⟩

/-- A kinematics DataFrame lacking the `velocity` column. -/
def noVelFrame : VelFrame := ⟨["frame", "timestamp"], []⟩

/-- Three consecutive Run-Frame Records of one player with space-created
values 1, 2, 3. -/
def exRunRows : List RunRow :=
  [⟨1, 1, "home", 6, 1, 1, true, 0, 0⟩,
   ⟨2, 1, "home", 7, 2, 1, true, 1, 1⟩,
   ⟨3, 1, "home", 8, 3, 1, true, 2, 2⟩]

/-- A single Run-Frame Record (a one-frame run). -/
def exSingleRun : List RunRow := [⟨5, 2, "away", 9, 4, 1, true, 3, 3⟩]

/-- A Voronoi result mapping every point to the empty region, so every player
receives the fallback area. -/
def vorA : VorResult := ⟨[0, 0, 0, 0], [[]], []⟩

/-- A Voronoi result giving the second point a bounded triangular region with
vertices (0,0), (100,0), (0,100) — shoelace area 5000 — and the fallback to
everyone else. -/
def vorB : VorResult := ⟨[0, 1, 0, 0], [[], [0, 1, 2]], [(0, 0), (100, 0), (0, 100)]⟩

/-- The end-frame points of the concrete tracking table below. -/
def ptsEnd : List (ℚ × ℚ) := [(1, 1), (11, 1), (1, 11), (11, 11)]

/-- A concrete Voronoi oracle: diagram `vorB` for the end-frame points and
`vorA` for every other point set. -/
def exOracle : VorOracle := fun pts => if pts = ptsEnd then some vorB else some vorA

/-- A Voronoi oracle that always raises. -/
def failOracle : VorOracle := fun _ => none

/-- A concrete kinematics table: players 1-4 present at frames 10 and 40,
player 1 running (velocity 9) over the frame-contiguous stretch 10-13 lasting
3 s; everyone else is slow. -/
def exDfRows : List VelRow :=
  [⟨10, 0, 1, 0, 0, true, 9⟩,
   ⟨10, 0, 2, 10, 0, true, 0⟩,
   ⟨10, 0, 3, 0, 10, true, 0⟩,
   ⟨10, 0, 4, 10, 10, true, 0⟩,
   ⟨11, 1, 1, 1, 0, true, 9⟩,
   ⟨12, 2, 1, 2, 0, true, 9⟩,
   ⟨13, 3, 1, 3, 0, true, 9⟩,
   ⟨40, 30, 1, 1, 1, true, 0⟩,
   ⟨40, 30, 2, 11, 1, true, 0⟩,
   ⟨40, 30, 3, 1, 11, true, 0⟩,
   ⟨40, 30, 4, 11, 11, true, 0⟩]

/-- The concrete kinematics table as a DataFrame. -/
def exDf : VelFrame := ⟨velCols, exDfRows⟩

/-- A possession table: at frame 10, home player 2 has the ball. -/
def exPoss : List PossRow := [⟨10, some 2, "home team"⟩]

/-- The single Run-Frame Record the concrete pipeline emits: at frame 10,
player 1's run gains teammate 2 the area difference 5000 - 1785 = 3215. -/
def exResult : ResultRow := ⟨10, 1, "home", 9, 3215, 1, true⟩

/-- A home-team trajectory used for the normalization witness. -/
def exTrajH : Traj := ⟨1, "home", 10, 13, 4, 5, 6, 7, 8, 9, 9, 3215, 1⟩

/-- An away-team trajectory used for the normalization witness. -/
def exTrajA : Traj := ⟨3, "away", 10, 13, 4, 5, 6, 7, 8, 9, 9, 0, 1⟩

/-! ### Structural lemmas about the run splitter -/

theorem consSeg_flatten (ok : α → α → Bool) (a : α) (segs : List (List α)) :
    (consSeg ok a segs).flatten = a :: segs.flatten := by
  match segs with
  | [] => simp [consSeg]
  | [] :: gs => simp [consSeg]
  | (b :: g) :: gs =>
    rw [consSeg]
    split <;> simp

theorem splitSegs_flatten (pid fr : α → Int) (gap : Int) (l : List α) :
    (splitSegs pid fr gap l).flatten = l := by
  induction l with
  | nil => rfl
  | cons a rest ih => rw [splitSegs, consSeg_flatten, ih]

theorem consSeg_ne_nil (ok : α → α → Bool) (a : α) (segs : List (List α))
    (h : ∀ g ∈ segs, g ≠ []) : ∀ g ∈ consSeg ok a segs, g ≠ [] := by
  match segs with
  | [] => simp [consSeg]
  | [] :: gs => exact absurd rfl (h [] (by simp))
  | (b :: g) :: gs =>
    rw [consSeg]
    split
    · intro g' hg'
      rcases List.mem_cons.mp hg' with h' | h'
      · simp [h']
      · exact h g' (List.mem_cons_of_mem _ h')
    · intro g' hg'
      rcases List.mem_cons.mp hg' with h' | h'
      · simp [h']
      · exact h g' h'

theorem splitSegs_ne_nil (pid fr : α → Int) (gap : Int) (l : List α) :
    ∀ g ∈ splitSegs pid fr gap l, g ≠ [] := by
  induction l with
  | nil => simp [splitSegs]
  | cons a rest ih => exact consSeg_ne_nil _ _ _ ih

theorem consSeg_chain (ok : α → α → Bool) (a : α) (segs : List (List α))
    (h : ∀ g ∈ segs, g.Chain' (fun x y => ok x y = true)) :
    ∀ g ∈ consSeg ok a segs, g.Chain' (fun x y => ok x y = true) := by
  match segs with
  | [] => simp [consSeg]
  | [] :: gs =>
    rw [consSeg]
    intro g' hg'
    rcases List.mem_cons.mp hg' with h' | h'
    · simp [h']
    · exact h g' h'
  | (b :: g) :: gs =>
    rw [consSeg]
    split
    · intro g' hg'
      rcases List.mem_cons.mp hg' with h' | h'
      · subst h'
        rw [List.chain'_cons]
        exact ⟨by assumption, h (b :: g) (by simp)⟩
      · exact h g' (List.mem_cons_of_mem _ h')
    · intro g' hg'
      rcases List.mem_cons.mp hg' with h' | h'
      · simp [h']
      · exact h g' h'

theorem splitSegs_chain (pid fr : α → Int) (gap : Int) (l : List α) :
    ∀ g ∈ splitSegs pid fr gap l,
      g.Chain' (fun x y => chainOk pid fr gap x y = true) := by
  induction l with
  | nil => simp [splitSegs]
  | cons a rest ih => exact consSeg_chain _ _ _ ih

theorem consSeg_boundary (ok : α → α → Bool) (a : α) (segs : List (List α))
    (h : segs.Chain' (fun g₁ g₂ => ∀ x ∈ g₁.getLast?, ∀ y ∈ g₂.head?,
      ok x y = false)) :
    (consSeg ok a segs).Chain' (fun g₁ g₂ => ∀ x ∈ g₁.getLast?, ∀ y ∈ g₂.head?,
      ok x y = false) := by
  match segs with
  | [] => simp [consSeg]
  | [] :: gs =>
    rw [consSeg, List.chain'_cons]
    exact ⟨by simp, h⟩
  | (b :: g) :: gs =>
    rw [consSeg]
    split
    · rw [List.chain'_cons'] at h ⊢
      refine ⟨?_, h.2⟩
      intro g₂ hg₂ x hx y hy
      exact h.1 g₂ hg₂ x (by simpa using hx) y hy
    · rw [List.chain'_cons]
      refine ⟨?_, h⟩
      intro x hx y hy
      simp only [List.getLast?_singleton, Option.mem_def,
        Option.some.injEq] at hx
      simp only [List.head?_cons, Option.mem_def, Option.some.injEq] at hy
      subst hx; subst hy
      simp_all

theorem splitSegs_boundary (pid fr : α → Int) (gap : Int) (l : List α) :
    (splitSegs pid fr gap l).Chain'
      (fun g₁ g₂ => ∀ x ∈ g₁.getLast?, ∀ y ∈ g₂.head?,
        chainOk pid fr gap x y = false) := by
  induction l with
  | nil => simp [splitSegs]
  | cons a rest ih => exact consSeg_boundary _ _ _ ih

theorem group_runs_eq (runs_df : List RunRow) :
    group_runs_to_trajectories runs_df =
      ((splitSegs (fun r : RunRow => r.player_id) (fun r : RunRow => r.frame)
        10 (sortBy runLe runs_df)).filter
          (fun g => decide (3 ≤ g.length))).map mkTraj := by
  by_cases h : runs_df.length = 0
  · rw [List.length_eq_zero] at h
    subst h
    simp [group_runs_to_trajectories, sortBy, splitSegs]
  · simp only [group_runs_to_trajectories, if_neg h]

/-! ### Claim theorems -/

/-- C3: evidence of the code bug in `calculate_velocity`.  The claim (and the
spec's kinematics invariant) requires every emitted speed to be nonnegative
and any zero-or-negative elapsed time to degrade to speed 0.  The code
divides the raw `diff` results and only fills NaN: a sample whose elapsed
time is negative gets the negative speed `-5`, and a sample with zero elapsed
time over a positive displacement gets `+inf`, not 0.  (The first emitted
sample per player does get speed 0, as claimed.) -/
theorem calculate_velocity_sign_violation :
    ((calculate_velocity sqrtPts trackNegDt none).map (fun r => r.velocity)
      = [PyFloat.num 0, PyFloat.num (-5)])
    ∧ ((calculate_velocity sqrtPts trackZeroDt none).map (fun r => r.velocity)
      = [PyFloat.num 0, PyFloat.inf])
    ∧ (-5 : ℚ) < 0 := by
  refine ⟨?_, ?_, by norm_num⟩ <;>
    norm_num [calculate_velocity, velocityRows, sortBy, insertSorted, trackLe,
      sqrtPts, trackNegDt, trackZeroDt, pyDiv, fillna0]

/-- C4 counterexample: with no minimum duration supplied, `detect_runs` does
not return the threshold-passing samples — the `min_duration` parameter
defaults to 3.0 s and the duration gate always runs, so the 0.1 s-long run at
indices 2 and 3 of the scenario is dropped and the result is empty rather
than the two claimed samples. -/
theorem detect_runs_scenario_default_empty :
    detect_runs scenarioFrame 5 3 = .ok []
    ∧ (Except.ok ([] : List VelRow) : Except String (List VelRow))
      ≠ .ok [⟨3, 3 / 10, 7, 0, 0, true, 6⟩, ⟨4, 4 / 10, 7, 0, 0, true, 7⟩] := by
  refine ⟨?_, by simp⟩
  norm_num [detect_runs, scenarioFrame, scenarioRows, velCols, sortBy,
    insertSorted, velLe, splitSegs, consSeg, chainOk, segDuration]

/-- C4 (amended): `detect_runs` has no duration-free mode — omitting the
minimum duration applies the default 3.0 s gate.  When the gate is disabled
by supplying a minimum duration of 0, the scenario [0, 3, 6, 7, 2] at
threshold 5.0 returns exactly the samples at indices 2 and 3 (speeds 6 and
7), forming one frame-contiguous run of length 2. -/
theorem detect_runs_scenario_no_duration_gate :
    detect_runs scenarioFrame 5 0 =
      .ok [⟨3, 3 / 10, 7, 0, 0, true, 6⟩, ⟨4, 4 / 10, 7, 0, 0, true, 7⟩] := by
  norm_num [detect_runs, scenarioFrame, scenarioRows, velCols, sortBy,
    insertSorted, velLe, splitSegs, consSeg, chainOk, segDuration]

/-- C1 counterexample: for three consecutive run frames with space-created
values 1, 2, 3, the emitted trajectory's total space-created is the sum 6,
not the last-minus-first delta 2. -/
theorem trajectory_total_not_delta :
    ((group_runs_to_trajectories exRunRows).map
      (fun t => t.total_space_created) = [6])
    ∧ ((6 : ℚ) = 3 - 1 → False) := by
  refine ⟨?_, by norm_num⟩
  norm_num [group_runs_to_trajectories, exRunRows, sortBy, insertSorted,
    runLe, splitSegs, consSeg, chainOk, mkTraj]

/-- C2 counterexample: a single-frame partition yields no trajectory row at
all — `group_runs_to_trajectories` skips groups of fewer than 3 rows, so the
claimed one-row-per-partition (with length-1 partitions accepted) fails. -/
theorem grouper_drops_short_partition :
    group_runs_to_trajectories exSingleRun = []
    ∧ (group_runs_to_trajectories exSingleRun).length ≠ 1 := by
  constructor <;>
    norm_num [group_runs_to_trajectories, exSingleRun, sortBy, insertSorted,
      runLe, splitSegs, consSeg, chainOk, mkTraj]

/-- C2 (amended): `group_runs_to_trajectories` partitions the sorted
Run-Frame Records into maximal per-player blocks, but a new partition starts
only at a frame gap of more than 10 (not more than 1), and only partitions of
at least 3 frames produce a trajectory row (length-1 and length-2 partitions
are dropped).  The four structural conjuncts say the blocks are a partition
of the sorted input, nonempty, internally chained by the
same-player-and-gap-at-most-10 rule, and maximal (adjacent blocks never
chain); the last conjunct is the emission rule. -/
theorem grouper_partition_rule (runs_df : List RunRow) :
    ((splitSegs (fun r : RunRow => r.player_id) (fun r : RunRow => r.frame) 10
        (sortBy runLe runs_df)).flatten = sortBy runLe runs_df)
    ∧ (∀ g ∈ splitSegs (fun r : RunRow => r.player_id)
        (fun r : RunRow => r.frame) 10 (sortBy runLe runs_df),
        g ≠ [] ∧
        g.Chain' (fun a b => a.player_id = b.player_id ∧ b.frame - a.frame ≤ 10))
    ∧ (splitSegs (fun r : RunRow => r.player_id) (fun r : RunRow => r.frame) 10
        (sortBy runLe runs_df)).Chain'
        (fun g₁ g₂ => ∀ x ∈ g₁.getLast?, ∀ y ∈ g₂.head?,
          ¬(x.player_id = y.player_id ∧ y.frame - x.frame ≤ 10))
    ∧ group_runs_to_trajectories runs_df =
        ((splitSegs (fun r : RunRow => r.player_id) (fun r : RunRow => r.frame)
          10 (sortBy runLe runs_df)).filter
            (fun g => decide (3 ≤ g.length))).map mkTraj := by
  refine ⟨splitSegs_flatten _ _ _ _, ?_, ?_, ?_⟩
  · intro g hg
    refine ⟨splitSegs_ne_nil _ _ _ _ g hg, ?_⟩
    refine (splitSegs_chain _ _ _ _ g hg).imp ?_
    intro a b hab
    simpa [chainOk] using hab
  · refine (splitSegs_boundary _ _ _ _).imp ?_
    intro g₁ g₂ h x hx y hy
    have := h x hx y hy
    simpa [chainOk] using this
  · exact group_runs_eq runs_df

/-- Witness for C2 at the concrete three-row table: the single partition is
nonempty and chained by the gap-at-most-10 rule. -/
theorem grouper_partition_rule_witness :
    exRunRows ≠ []
    ∧ exRunRows.Chain'
        (fun a b => a.player_id = b.player_id ∧ b.frame - a.frame ≤ 10) :=
  (grouper_partition_rule exRunRows).2.1 exRunRows
    (by norm_num [sortBy, insertSorted, runLe, splitSegs, consSeg, chainOk,
      exRunRows])

/-- C1 (amended): every trajectory emitted by `group_runs_to_trajectories`
comes from a constituent partition of at least 3 frames, and its total
space-created is the SUM of the partition's per-frame space-created values,
not the last-minus-first delta; single-frame runs are dropped entirely rather
than emitted with total 0. -/
theorem trajectory_total_is_sum (runs_df : List RunRow) (t : Traj)
    (ht : t ∈ group_runs_to_trajectories runs_df) :
    ∃ g ∈ splitSegs (fun r : RunRow => r.player_id) (fun r : RunRow => r.frame)
        10 (sortBy runLe runs_df),
      3 ≤ g.length ∧ t.duration_frames = g.length
      ∧ t.total_space_created = (g.map (fun r => r.space_created)).sum := by
  rw [group_runs_eq runs_df] at ht
  obtain ⟨g, hg, rfl⟩ := List.mem_map.mp ht
  obtain ⟨hgseg, hglen⟩ := List.mem_filter.mp hg
  exact ⟨g, hgseg, by simpa using hglen, rfl, rfl⟩

/-- Witness for C1 at the concrete three-row table. -/
theorem trajectory_total_is_sum_witness :
    ∃ g ∈ splitSegs (fun r : RunRow => r.player_id) (fun r : RunRow => r.frame)
        10 (sortBy runLe exRunRows),
      3 ≤ g.length ∧ (mkTraj exRunRows).duration_frames = g.length
      ∧ (mkTraj exRunRows).total_space_created
        = (g.map (fun r => r.space_created)).sum :=
  trajectory_total_is_sum exRunRows (mkTraj exRunRows)
    (by norm_num [group_runs_to_trajectories, sortBy, insertSorted, runLe,
      splitSegs, consSeg, chainOk, exRunRows])

/-- C9: invoking `detect_runs` on a table lacking the velocity column returns
the explicit typed error (the embedding's rendering of the `ValueError` the
source raises), before any filtering happens; the embedding is a pure
function, so the input table is left untouched by construction. -/
theorem detect_runs_missing_velocity_column (df : VelFrame)
    (velocity_threshold min_duration : ℚ)
    (h : "velocity" ∉ df.columns) :
    detect_runs df velocity_threshold min_duration =
      .error
        "DataFrame must have velocity column. Run calculate_velocity first." := by
  unfold detect_runs
  rw [if_neg h]

/-- Witness for C9 at a concrete two-column table. -/
theorem detect_runs_missing_velocity_column_witness :
    detect_runs noVelFrame 5 3 =
      .error
        "DataFrame must have velocity column. Run calculate_velocity first." :=
  detect_runs_missing_velocity_column noVelFrame 5 3 (by decide)

theorem shoelace_nonneg (vertices : List (ℚ × ℚ)) : 0 ≤ shoelace vertices := by
  unfold shoelace
  positivity

theorem cellArea_bounds (v : VorResult) (L W : ℚ) (n : Nat) (i : Nat)
    (hL : 0 ≤ L) (hW : 0 ≤ W) (hn : 1 ≤ n) :
    0 ≤ cellArea v L W n i ∧ cellArea v L W n i ≤ L * W := by
  have hLW : 0 ≤ L * W := mul_nonneg hL hW
  have hfall : 0 ≤ L * W / (n : ℚ) ∧ L * W / (n : ℚ) ≤ L * W :=
    ⟨div_nonneg hLW (Nat.cast_nonneg n),
     div_le_self hLW (by exact_mod_cast hn)⟩
  unfold cellArea
  split
  · exact hfall
  · split
    · exact ⟨le_min (shoelace_nonneg _) hLW, min_le_right _ _⟩
    · exact hfall

theorem cellArea_degenerate (v : VorResult) (L W : ℚ) (n : Nat) (i : Nat)
    (h : (-1 : Int) ∈ regionOf v i ∨ (regionOf v i).length < 3) :
    cellArea v L W n i = L * W / n := by
  unfold cellArea
  split
  · rfl
  · rename_i hnot
    rw [if_neg]
    intro h3
    rcases h with h | h
    · exact hnot (Or.inl h)
    · rw [cellVertices, List.length_map] at h3
      omega

/-- C5: for any frame on which the tessellation runs (at least 4 rows, oracle
succeeds), every area in the returned map lies in `[0, pitch_length *
pitch_width]`; and any point whose region is unbounded (contains `-1`) or has
fewer than 3 vertices is mapped to exactly `pitch_length * pitch_width /
(number of rows in the frame)`. -/
theorem voronoi_area_bounds_and_fallback (vor : VorOracle) (df : List VelRow)
    (frame_number : Int) (pitch_length pitch_width : ℚ)
    (hL : 0 ≤ pitch_length) (hW : 0 ≤ pitch_width) :
    (∀ p ∈ calculate_voronoi_areas vor df frame_number pitch_length pitch_width,
      0 ≤ p.2 ∧ p.2 ≤ pitch_length * pitch_width)
    ∧ (∀ v, vor (framePoints df frame_number) = some v →
        4 ≤ (frameRows df frame_number).length →
        ∀ (i : Nat) (r : VelRow), (frameRows df frame_number)[i]? = some r →
        ((-1 : Int) ∈ regionOf v i ∨ (regionOf v i).length < 3) →
        (calculate_voronoi_areas vor df frame_number pitch_length
            pitch_width)[i]?
          = some (r.player_id,
              pitch_length * pitch_width / (frameRows df frame_number).length)) := by
  constructor
  · intro p hp
    unfold calculate_voronoi_areas at hp
    by_cases hlen : (frameRows df frame_number).length < 4
    · rw [if_pos hlen] at hp
      simp at hp
    · rw [if_neg hlen] at hp
      cases hv : vor (framePoints df frame_number) with
      | none => rw [hv] at hp; simp at hp
      | some v =>
        rw [hv] at hp
        simp only [List.mem_map] at hp
        obtain ⟨⟨i, r⟩, _, rfl⟩ := hp
        exact cellArea_bounds v _ _ _ i hL hW (by omega)
  · intro v hv h4 i r hr hdeg
    unfold calculate_voronoi_areas
    rw [if_neg (by omega), hv]
    rw [List.getElem?_map, List.getElem?_enum, hr]
    simp only [Option.map_some']
    rw [cellArea_degenerate v _ _ _ i hdeg]

/-- Witness for C5 at the concrete oracle and table: player 2's bounded
triangle area 5000 is within the pitch bounds, and point 0's empty region
receives exactly the fallback `105 * 68 / 4`. -/
theorem voronoi_area_bounds_and_fallback_witness :
    (0 ≤ ((2 : Int), (5000 : ℚ)).2 ∧ ((2 : Int), (5000 : ℚ)).2 ≤ 105 * 68)
    ∧ (calculate_voronoi_areas exOracle exDfRows 40 105 68)[0]?
      = some ((⟨40, 30, 1, 1, 1, true, 0⟩ : VelRow).player_id,
          (105 : ℚ) * 68 / ((frameRows exDfRows 40).length : ℚ)) :=
  ⟨(voronoi_area_bounds_and_fallback exOracle exDfRows 40 105 68
      (by norm_num) (by norm_num)).1 (2, 5000)
      (by
        have h0 : (0 : Int).toNat = 0 := by simp
        have h1 : (1 : Int).toNat = 1 := by simp
        have h2 : (2 : Int).toNat = 2 := by simp
        norm_num [calculate_voronoi_areas, frameRows, framePoints, exOracle,
          ptsEnd, vorA, vorB, cellArea, regionOf, cellVertices, shoelace,
          roll1, dotQ, exDfRows, List.enum, List.enumFrom, List.getD, min_def,
          h0, h1, h2, List.cons_ne_nil]),
   (voronoi_area_bounds_and_fallback exOracle exDfRows 40 105 68
      (by norm_num) (by norm_num)).2 vorB
      (by norm_num [framePoints, frameRows, exDfRows, exOracle, ptsEnd])
      (by norm_num [frameRows, exDfRows])
      0 ⟨40, 30, 1, 1, 1, true, 0⟩
      (by norm_num [frameRows, exDfRows])
      (by norm_num [regionOf, vorB])⟩

/-- C8: the tessellation engine returns an empty map (no error) both when the
frame has fewer than 4 positions and when the geometric library fails. -/
theorem voronoi_empty_on_failure (vor : VorOracle) (df : List VelRow)
    (frame_number : Int) (pitch_length pitch_width : ℚ) :
    ((frameRows df frame_number).length < 4 →
      calculate_voronoi_areas vor df frame_number pitch_length pitch_width = [])
    ∧ (vor (framePoints df frame_number) = none →
      calculate_voronoi_areas vor df frame_number pitch_length pitch_width
        = []) := by
  constructor
  · intro h
    unfold calculate_voronoi_areas
    rw [if_pos h]
  · intro h
    unfold calculate_voronoi_areas
    by_cases hlen : (frameRows df frame_number).length < 4
    · rw [if_pos hlen]
    · rw [if_neg hlen, h]

/-- Witness for C8: an empty frame and an always-raising oracle both yield the
empty map. -/
theorem voronoi_empty_on_failure_witness :
    calculate_voronoi_areas exOracle [] 0 105 68 = []
    ∧ calculate_voronoi_areas failOracle exDfRows 10 105 68 = [] :=
  ⟨(voronoi_empty_on_failure exOracle [] 0 105 68).1
      (by norm_num [frameRows]),
   (voronoi_empty_on_failure failOracle exDfRows 10 105 68).2 rfl⟩

/-- C7: the multi-target space-creation map has an entry for a teammate
exactly when the teammate appears in both the start-frame and end-frame area
maps with a strictly positive area difference, and the entry is that
difference — so no teammate with non-positive gain is ever included. -/
theorem space_creation_entry_iff (vor : VorOracle) (df : List VelRow)
    (player_id : Int) (start_frame end_frame : Int) (teammate_ids : List Int)
    (tm : Int) (g : ℚ) :
    ((tm, g) ∈ measure_space_creation vor df player_id start_frame end_frame
        teammate_ids)
    ↔ tm ∈ teammate_ids
      ∧ ∃ before,
          (calculate_voronoi_areas vor df start_frame 105 68).lookup tm
            = some before
      ∧ ∃ after,
          (calculate_voronoi_areas vor df end_frame 105 68).lookup tm
            = some after
      ∧ 0 < after - before ∧ g = after - before := by
  unfold measure_space_creation
  split
  · rename_i hempty
    simp only [List.not_mem_nil, false_iff]
    rintro ⟨_, before, hb, after, ha, _, _⟩
    rcases hempty with h | h
    · rw [h] at hb; simp [List.lookup] at hb
    · rw [h] at ha; simp [List.lookup] at ha
  · rw [List.mem_filterMap]
    constructor
    · rintro ⟨t, ht, hf⟩
      cases hb : (calculate_voronoi_areas vor df start_frame 105 68).lookup t with
      | none => rw [hb] at hf; simp at hf
      | some before =>
        cases ha : (calculate_voronoi_areas vor df end_frame 105 68).lookup t with
        | none => rw [hb, ha] at hf; simp at hf
        | some after =>
          rw [hb, ha] at hf
          dsimp only at hf
          by_cases hpos : 0 < after - before
          · rw [if_pos hpos] at hf
            simp only [Option.some.injEq, Prod.mk.injEq] at hf
            obtain ⟨rfl, rfl⟩ := hf
            exact ⟨ht, before, hb, after, ha, hpos, rfl⟩
          · rw [if_neg hpos] at hf
            simp at hf
    · rintro ⟨htm, before, hb, after, ha, hpos, rfl⟩
      exact ⟨tm, htm, by simp [hb, ha, hpos]⟩

/-- C10: when the period has a home-attack-direction label from the two-value
vocabulary, the normalization negates `start_x` and `end_x` of exactly the
trajectories of the team attacking right-to-left (home under
"right_to_left", away under "left_to_right"), leaving the other team's rows
and all non-x fields unchanged; the transform is a single `map`, so each
trajectory's x-coordinates are negated at most once. -/
theorem normalization_flips_right_to_left_team (home_team_side : List String)
    (period : Nat) (traj : List Traj) (dir : String)
    (hdir : home_team_side.get? (period - 1) = some dir)
    (hvocab : dir = "right_to_left" ∨ dir = "left_to_right") :
    normalize_trajectories home_team_side period traj
      = traj.map (fun t =>
          if specAttacksRightToLeft dir t.team then flipTrajX t else t)
    ∧ ∀ t : Traj, (flipTrajX t).start_x = -t.start_x
        ∧ (flipTrajX t).end_x = -t.end_x
        ∧ (flipTrajX t).start_y = t.start_y
        ∧ (flipTrajX t).end_y = t.end_y
        ∧ (flipTrajX t).team = t.team
        ∧ (flipTrajX t).start_frame = t.start_frame
        ∧ (flipTrajX t).end_frame = t.end_frame := by
  refine ⟨?_, fun t => ⟨rfl, rfl, rfl, rfl, rfl, rfl, rfl⟩⟩
  unfold normalize_trajectories
  rw [hdir]
  dsimp only
  rcases hvocab with rfl | rfl
  · rw [if_pos (by decide)]
    simp only [List.map_inj_left, specAttacksRightToLeft]
    intro t _
    by_cases ht : t.team = "home" <;> simp [ht]
  · rw [if_neg (by decide)]
    simp only [List.map_inj_left, specAttacksRightToLeft]
    intro t _
    by_cases ht : t.team = "away" <;> simp [ht]

/-- Witness for C10 at a two-row trajectory table in a right-to-left period:
the home row is flipped, the away row is untouched. -/
theorem normalization_flips_right_to_left_team_witness :
    normalize_trajectories ["right_to_left"] 1 [exTrajH, exTrajA]
      = [exTrajH, exTrajA].map (fun t =>
          if specAttacksRightToLeft "right_to_left" t.team then flipTrajX t
          else t) :=
  (normalization_flips_right_to_left_team ["right_to_left"] 1
    [exTrajH, exTrajA] "right_to_left" rfl (Or.inl rfl)).1

theorem processRun_fields (vor : VorOracle) (df : List VelRow)
    (possession_df : List PossRow)
    (home_player_ids away_player_ids : List Int) (window_frames : Int)
    (run : VelRow) (r : ResultRow)
    (h : processRun vor df possession_df home_player_ids away_player_ids
      window_frames run = some r) :
    r.frame = run.frame ∧ r.player_id = run.player_id ∧
    ∃ pr, (possession_df.filter (fun p => p.frame == run.frame)).head?
        = some pr
      ∧ ∃ q, pr.player_id = some q ∧ q ≠ run.player_id := by
  unfold processRun at h
  cases h₁ : playerToTeam home_player_ids away_player_ids run.player_id with
  | none => rw [h₁] at h; simp at h
  | some runner_team =>
    rw [h₁] at h
    dsimp only at h
    cases h₂ : (possession_df.filter (fun p => p.frame == run.frame)).head? with
    | none => rw [h₂] at h; simp at h
    | some pr =>
      rw [h₂] at h
      dsimp only at h
      cases h₃ : pr.player_id with
      | none => rw [h₃] at h; simp at h
      | some q =>
        rw [h₃] at h
        dsimp only at h
        by_cases h₄ : q = run.player_id
        · rw [if_pos h₄] at h; simp at h
        · rw [if_neg h₄] at h
          cases h₅ : playerToTeam home_player_ids away_player_ids q with
          | none => rw [h₅] at h; simp at h
          | some poss_team =>
            rw [h₅] at h
            dsimp only at h
            by_cases h₆ : runner_team ≠ poss_team
            · rw [if_pos h₆] at h; simp at h
            · rw [if_neg h₆] at h
              by_cases h₇ : ((if runner_team = "home" then home_player_ids
                  else away_player_ids).filter (fun p => p ≠ run.player_id))
                  = []
              · rw [if_pos h₇] at h; simp at h
              · rw [if_neg h₇] at h
                by_cases h₈ : measure_space_creation vor df run.player_id
                    run.frame (run.frame + window_frames)
                    ((if runner_team = "home" then home_player_ids
                      else away_player_ids).filter (fun p => p ≠ run.player_id))
                    = []
                · rw [if_pos h₈] at h; simp at h
                · rw [if_neg h₈] at h
                  have hr := Option.some.inj h
                  refine ⟨?_, ?_, pr, ?_, q, h₃, h₄⟩
                  · rw [← hr]
                  · rw [← hr]
                  · rfl

/-- C6: for any inputs, if the pipeline succeeds then no emitted Run-Frame
Record has the recorded possessor of its frame (the first possession row for
that frame) equal to the runner — a frame where the runner is the possessor
is skipped, never emitted. -/
theorem no_record_when_runner_possesses (vor : VorOracle) (df : VelFrame)
    (possession_df : List PossRow)
    (home_player_ids away_player_ids : List Int)
    (velocity_threshold : ℚ) (window_frames : Int) (rows : List ResultRow)
    (hok : analyze_offball_runs vor df possession_df home_player_ids
      away_player_ids velocity_threshold window_frames = .ok rows) :
    ∀ r ∈ rows, ∀ pr,
      (possession_df.filter (fun p => p.frame == r.frame)).head? = some pr →
      pr.player_id ≠ some r.player_id := by
  intro r hr pr hpr
  unfold analyze_offball_runs at hok
  cases hd : detect_runs df velocity_threshold 3 with
  | error e => rw [hd] at hok; simp [Except.map] at hok
  | ok runs =>
    rw [hd] at hok
    simp only [Except.map, Except.ok.injEq] at hok
    rw [← hok] at hr
    obtain ⟨run, _, hsome⟩ := List.mem_filterMap.mp hr
    obtain ⟨hfr, hpid, pr0, hpr0, q, hq, hqne⟩ :=
      processRun_fields vor df.rows possession_df home_player_ids
        away_player_ids window_frames run r hsome
    rw [hfr] at hpr
    rw [hpr0] at hpr
    have hpr0eq := Option.some.inj hpr
    rw [← hpr0eq, hq, hpid]
    intro hcontra
    exact hqne (Option.some.inj hcontra)

set_option maxHeartbeats 3200000 in
theorem voronoi_areas_exEval :
    calculate_voronoi_areas exOracle exDfRows 10 105 68
      = [(1, 1785), (2, 1785), (3, 1785), (4, 1785)]
    ∧ calculate_voronoi_areas exOracle exDfRows 40 105 68
      = [(1, 1785), (2, 5000), (3, 1785), (4, 1785)] := by
  have h0 : (0 : Int).toNat = 0 := by simp
  have h1 : (1 : Int).toNat = 1 := by simp
  have h2 : (2 : Int).toNat = 2 := by simp
  constructor <;>
    norm_num [calculate_voronoi_areas, frameRows, framePoints, exOracle,
      ptsEnd, vorA, vorB, cellArea, regionOf, cellVertices, shoelace, roll1,
      dotQ, exDfRows, List.enum, List.enumFrom, List.getD, min_def,
      h0, h1, h2, List.cons_ne_nil]

set_option maxHeartbeats 3200000 in
theorem detect_runs_exEval :
    detect_runs exDf 5 3 =
      .ok [⟨10, 0, 1, 0, 0, true, 9⟩, ⟨11, 1, 1, 1, 0, true, 9⟩,
        ⟨12, 2, 1, 2, 0, true, 9⟩, ⟨13, 3, 1, 3, 0, true, 9⟩] := by
  norm_num [detect_runs, exDf, velCols, exDfRows, sortBy, insertSorted, velLe,
    splitSegs, consSeg, chainOk, segDuration]

set_option maxHeartbeats 6400000 in
theorem analyze_offball_runs_exEval :
    analyze_offball_runs exOracle exDf exPoss [1, 2] [3, 4] 5 30
      = .ok [exResult] := by
  have h0 : (0 : Int).toNat = 0 := by simp
  have h1 : (1 : Int).toNat = 1 := by simp
  have h2 : (2 : Int).toNat = 2 := by simp
  have hb21 : ((2 : Int) == 1) = false := by decide
  have hb22 : ((2 : Int) == 2) = true := by decide
  rw [analyze_offball_runs, detect_runs_exEval]
  norm_num [Except.map, processRun, playerToTeam, exPoss, exDf,
    measure_space_creation, calculate_voronoi_areas, frameRows, framePoints,
    exOracle, ptsEnd, vorA, vorB, cellArea, regionOf, cellVertices, shoelace,
    roll1, dotQ, exDfRows, List.enum, List.enumFrom, List.getD, min_def,
    List.lookup, exResult, h0, h1, h2, hb21, hb22, List.cons_ne_nil,
    List.filterMap_cons, List.filterMap_nil]

/-- Witness for C6 at the concrete pipeline run: the emitted record is for
runner 1 at frame 10, whose recorded possessor is teammate 2, not the runner. -/
theorem no_record_when_runner_possesses_witness :
    (⟨10, some 2, "home team"⟩ : PossRow).player_id
      ≠ some exResult.player_id :=
  no_record_when_runner_possesses exOracle exDf exPoss [1, 2] [3, 4] 5 30
    [exResult] analyze_offball_runs_exEval
    exResult (by simp)
    ⟨10, some 2, "home team"⟩
    (by norm_num [exPoss, exResult, List.filter])

end SpaceAnalysis
